import Mathlib

/-!
Package pkg/deviceutils (Linux): `DisableDevice` and `IsDeviceFilesystemInUse`

A shallow embedding of `pkg/deviceutils/device-utils_linux.go`.

Go strings are embedded as Lean strings.  The only byte the code inspects is
the path separator `/` (0x2F), which is a one-byte code point that never occurs
inside a multi-byte UTF-8 sequence, so scanning characters and scanning bytes
select the same segment.

The operating system and the mounter are not part of the package: they are
parameters of the embedding (`Kernel`, `SafeFormatAndMount`), quantified over in
every theorem.  Each call that crosses that boundary is appended to a trace, so
that "how many writes" and "was a stat attempted" are statements about a value.
-/

namespace deviceutils

/-! ## Library functions the package calls -/

/-- The test `os.IsPathSeparator` on Linux: the separator is the slash. -/
def IsPathSeparator (c : Char) : Bool := c == '/'

/-- The function `filepath.Base` of the Go standard library on Linux (where the
volume name is always empty), over the characters of the path:

* the empty path gives `"."`;
* trailing separators are stripped;
* what follows the last remaining separator is kept (the whole path when there
  is none);
* if nothing is left the path had only separators and the result is `"/"`. -/
def BaseChars (path : List Char) : List Char :=
  if path = [] then ['.']
  else
    let stripped := path.rdropWhile IsPathSeparator
    let last := stripped.rtakeWhile (fun c => !IsPathSeparator c)
    if last = [] then ['/'] else last

/-- The function `filepath.Base` on strings. -/
def Base (path : String) : String := ⟨BaseChars path.data⟩

/-- The function `fmt.Sprintf` at the format `"/sys/block/%s/device/state"`: the
verb `%s` applied to a string inserts it unchanged. -/
def SprintfBlockState (deviceName : String) : String :=
  "/sys/block/" ++ deviceName ++ "/device/state"

/-- The function `fmt.Sprintf` at the format `"/sys/fs/%s/%s"`. -/
def SprintfSysFs (fstype devFsName : String) : String :=
  "/sys/fs/" ++ fstype ++ "/" ++ devFsName

/-- A non-nil Go `error`, as far as this package can observe one: the text its
`Error()` method returns and the answer `os.IsNotExist` gives for it. -/
structure GoError where
  /-- The result of the method `Error()`. -/
  Error : String
  /-- The result of `os.IsNotExist` on this error. -/
  IsNotExist : Bool
  deriving DecidableEq, Repr

/-- The function `fmt.Errorf` at the format
`"failed to get disk format for %s (aka %s): %v"`.  The verb `%v` applied to a
non-nil error inserts its `Error()` text.  The error that `Errorf` builds without
a `%w` verb carries only its text, and `os.IsNotExist` is false of it. -/
def ErrorfDiskFormat (devicePath devFsPath : String) (err : GoError) : GoError :=
  ⟨"failed to get disk format for " ++ devicePath ++ " (aka " ++ devFsPath ++ "): "
    ++ err.Error, false⟩

/-- Equality of Go results `(value, error)` is decidable. -/
instance instDecidableEqExcept {ε α : Type} [DecidableEq ε] [DecidableEq α] :
    DecidableEq (Except ε α)
  | Except.ok a, Except.ok b =>
      if h : a = b then isTrue (by rw [h]) else isFalse (fun hab => h (Except.ok.inj hab))
  | Except.error a, Except.error b =>
      if h : a = b then isTrue (by rw [h]) else isFalse (fun hab => h (Except.error.inj hab))
  | Except.ok _, Except.error _ => isFalse (fun hab => Except.noConfusion hab)
  | Except.error _, Except.ok _ => isFalse (fun hab => Except.noConfusion hab)

/-- The part of `os.FileInfo` the package reads. -/
structure FileInfo where
  /-- The result of the method `IsDir()`. -/
  IsDir : Bool
  deriving DecidableEq, Repr

/-! ## The boundary: kernel filesystem, mounter, and the trace of calls -/

/-- One call that leaves the package. -/
inductive Call where
  /-- The call `os.WriteFile(name, data, perm)`. -/
  | writeFile (name : String) (data : String) (perm : Nat)
  /-- The call `os.Stat(name)`. -/
  | stat (name : String)
  /-- The call `mounter.GetDiskFormat(disk)`. -/
  | getDiskFormat (disk : String)
  deriving DecidableEq, Repr

/-- The ambient filesystem namespace, over an arbitrary type `σ` of filesystem
states.  Both functions are parameters: nothing is assumed about what a write
or a stat does. -/
structure Kernel (σ : Type) where
  /-- The function `os.WriteFile`: the returned error (`none` is `nil`) and the next state. -/
  writeFile : String → String → Nat → σ → Option GoError × σ
  /-- The function `os.Stat`: the file information or the error, and the next state. -/
  stat : String → σ → Except GoError FileInfo × σ

/-- The collaborator `mount.SafeFormatAndMount`, of which the package uses the
single method `GetDiskFormat`. -/
structure SafeFormatAndMount (σ : Type) where
  /-- The method `GetDiskFormat`: the filesystem type or the error, and the next state. -/
  getDiskFormat : String → σ → Except GoError String × σ

/-- A filesystem state together with the calls made so far, oldest first. -/
structure World (σ : Type) where
  /-- The current filesystem state. -/
  state : σ
  /-- The calls made so far. -/
  trace : List Call

/-- The call `os.WriteFile(name, data, perm)`, recorded. -/
def WriteFile {σ : Type} (k : Kernel σ) (name data : String) (perm : Nat) (w : World σ) :
    Option GoError × World σ :=
  let r := k.writeFile name data perm w.state
  (r.1, ⟨r.2, w.trace ++ [Call.writeFile name data perm]⟩)

/-- The call `os.Stat(name)`, recorded. -/
def Stat {σ : Type} (k : Kernel σ) (name : String) (w : World σ) :
    Except GoError FileInfo × World σ :=
  let r := k.stat name w.state
  (r.1, ⟨r.2, w.trace ++ [Call.stat name]⟩)

/-- The call `mounter.GetDiskFormat(disk)`, recorded. -/
def GetDiskFormat {σ : Type} (mounter : SafeFormatAndMount σ) (disk : String) (w : World σ) :
    Except GoError String × World σ :=
  let r := mounter.getDiskFormat disk w.state
  (r.1, ⟨r.2, w.trace ++ [Call.getDiskFormat disk]⟩)

/-! ## The package -/

/-- The method `DisableDevice`:
```go
deviceName := filepath.Base(devicePath)
return os.WriteFile(fmt.Sprintf("/sys/block/%s/device/state", deviceName), []byte("offline\n"), 0644)
```
The result is the returned error (`none` is `nil`) and the world afterwards. -/
def DisableDevice {σ : Type} (k : Kernel σ) (devicePath : String) (w : World σ) :
    Option GoError × World σ :=
  let deviceName := Base devicePath
  WriteFile k (SprintfBlockState deviceName) "offline\n" 0o644 w

/-- The method `IsDeviceFilesystemInUse`.  The result is the returned pair
`(bool, error)` and the world afterwards. -/
def IsDeviceFilesystemInUse {σ : Type} (k : Kernel σ) (mounter : SafeFormatAndMount σ)
    (devicePath devFsPath : String) (w : World σ) : (Bool × Option GoError) × World σ :=
  match GetDiskFormat mounter devicePath w with
  | (Except.error err, w1) =>
      ((false, some (ErrorfDiskFormat devicePath devFsPath err)), w1)
  | (Except.ok fstype, w1) =>
      let devFsName := Base devFsPath
      let sysFsTypePath := SprintfSysFs fstype devFsName
      match Stat k sysFsTypePath w1 with
      | (Except.error err, w2) =>
          if err.IsNotExist then
            -- Path doesn't exist, indicating the device is NOT in use
            ((false, none), w2)
          else ((false, some err), w2)
      | (Except.ok stat, w2) => ((stat.IsDir, none), w2)

/-! ## A small concrete filesystem, used to instantiate the theorems -/

/-- What a path of the concrete filesystem holds. -/
inductive Node where
  /-- A directory. -/
  | dir
  /-- A regular (or control) file. -/
  | file
  /-- An entry whose metadata cannot be read and that cannot be written. -/
  | denied
  deriving DecidableEq, Repr

/-- The concrete filesystem state: the paths that exist. -/
abbrev Tree := List (String × Node)

/-- The error of a missing path. -/
def errNotExist (op name : String) : GoError :=
  ⟨op ++ " " ++ name ++ ": no such file or directory", true⟩

/-- The error of a refused access. -/
def errPermission (op name : String) : GoError :=
  ⟨op ++ " " ++ name ++ ": permission denied", false⟩

/-- A kernel over `Tree`: writes succeed on existing files only and leave the
tree as it is; stat answers from the tree. -/
def treeKernel : Kernel Tree where
  writeFile := fun name _ _ t =>
    match t.lookup name with
    | some Node.file => (none, t)
    | some Node.dir => (some ⟨"open " ++ name ++ ": is a directory", false⟩, t)
    | some Node.denied => (some (errPermission "open" name), t)
    | none => (some (errNotExist "open" name), t)
  stat := fun name t =>
    match t.lookup name with
    | some Node.file => (Except.ok ⟨false⟩, t)
    | some Node.dir => (Except.ok ⟨true⟩, t)
    | some Node.denied => (Except.error (errPermission "stat" name), t)
    | none => (Except.error (errNotExist "stat" name), t)

/-- A mounter that knows the format of the listed disks and fails on the others. -/
def tableMounter (table : List (String × String)) : SafeFormatAndMount Tree where
  getDiskFormat := fun disk t =>
    match table.lookup disk with
    | some fstype => (Except.ok fstype, t)
    | none => (Except.error ⟨"exit status 2", false⟩, t)

/-- The non-empty components of a path, the way path resolution reads it: the
maximal separator-free runs, in order.  The accumulator holds the run being
read, reversed. -/
def componentsFrom : List Char → List Char → List (List Char)
  | [], acc => if acc = [] then [] else [acc.reverse]
  | c :: cs, acc =>
      if c = '/' then (if acc = [] then [] else [acc.reverse]) ++ componentsFrom cs []
      else componentsFrom cs (c :: acc)

/-- The non-empty components of a path string. -/
def components (path : String) : List String :=
  (componentsFrom path.data []).map String.mk

/-- A world over `Tree` with an empty trace. -/
def freshWorld (t : Tree) : World Tree := ⟨t, []⟩

/-! ## DisableDevice -/

/-- C1: for every device path, `DisableDevice` makes exactly one call across the
boundary, the write of the 8 bytes `"offline\n"` with mode 0644 to
`"/sys/block/" ++ base(p) ++ "/device/state"`; the state afterwards is the one
that single write produced, whether it succeeded or failed; for `"/dev/sdb"` the
target is `"/sys/block/sdb/device/state"`. -/
theorem C1_DisableDevice_single_write {σ : Type} (k : Kernel σ) (p : String) (w : World σ) :
    (DisableDevice k p w).2.trace
        = w.trace ++ [Call.writeFile ("/sys/block/" ++ Base p ++ "/device/state") "offline\n" 0o644]
      ∧ (DisableDevice k p w).2.state
        = (k.writeFile ("/sys/block/" ++ Base p ++ "/device/state") "offline\n" 0o644 w.state).2
      ∧ "offline\n".utf8ByteSize = 8
      ∧ "offline\n".data = ['o', 'f', 'f', 'l', 'i', 'n', 'e', '\n']
      ∧ (0o644 : Nat) = 6 * 64 + 4 * 8 + 4
      ∧ (DisableDevice k "/dev/sdb" w).2.trace
        = w.trace ++ [Call.writeFile "/sys/block/sdb/device/state" "offline\n" 0o644] := by
  refine ⟨rfl, rfl, by decide, by decide, by decide, ?_⟩
  have hb : Base "/dev/sdb" = "sdb" := by decide
  have hs : SprintfBlockState "sdb" = "/sys/block/sdb/device/state" := by decide
  simp only [DisableDevice, WriteFile, hb, hs]

/-- C2: for every device path and every behaviour of the write, `DisableDevice`
returns exactly what the write returned: `nil` if and only if the write
succeeded, and otherwise the very error of the write. -/
theorem C2_DisableDevice_error_verbatim {σ : Type} (k : Kernel σ) (p : String) (w : World σ) :
    (DisableDevice k p w).1
        = (k.writeFile ("/sys/block/" ++ Base p ++ "/device/state") "offline\n" 0o644 w.state).1
      ∧ ((DisableDevice k p w).1 = none ↔
          (k.writeFile ("/sys/block/" ++ Base p ++ "/device/state") "offline\n" 0o644 w.state).1
            = none)
      ∧ ∀ e : GoError,
          (k.writeFile ("/sys/block/" ++ Base p ++ "/device/state") "offline\n" 0o644 w.state).1
            = some e → (DisableDevice k p w).1 = some e :=
  ⟨rfl, Iff.rfl, fun _ h => h⟩

/-! ## IsDeviceFilesystemInUse -/

/-- When format detection fails, the run ends after that one call. -/
theorem inUse_of_format_error {σ : Type} (k : Kernel σ) (m : SafeFormatAndMount σ)
    (devicePath devFsPath : String) (w : World σ) (u : GoError) (s1 : σ)
    (hfmt : m.getDiskFormat devicePath w.state = (Except.error u, s1)) :
    IsDeviceFilesystemInUse k m devicePath devFsPath w
      = ((false, some (ErrorfDiskFormat devicePath devFsPath u)),
          ⟨s1, w.trace ++ [Call.getDiskFormat devicePath]⟩) := by
  simp [IsDeviceFilesystemInUse, GetDiskFormat, hfmt]

/-- When format detection succeeds, the run is decided by the stat of the lookup path. -/
theorem inUse_of_format_ok {σ : Type} (k : Kernel σ) (m : SafeFormatAndMount σ)
    (devicePath devFsPath : String) (w : World σ) (T : String) (s1 : σ)
    (hfmt : m.getDiskFormat devicePath w.state = (Except.ok T, s1)) :
    IsDeviceFilesystemInUse k m devicePath devFsPath w
      = (match (k.stat ("/sys/fs/" ++ T ++ "/" ++ Base devFsPath) s1).1 with
          | Except.error err => if err.IsNotExist then (false, none) else (false, some err)
          | Except.ok stat => (stat.IsDir, none),
         ⟨(k.stat ("/sys/fs/" ++ T ++ "/" ++ Base devFsPath) s1).2,
          w.trace ++ [Call.getDiskFormat devicePath,
            Call.stat ("/sys/fs/" ++ T ++ "/" ++ Base devFsPath)]⟩) := by
  simp only [IsDeviceFilesystemInUse, GetDiskFormat, hfmt, Stat, SprintfSysFs]
  rcases hst : k.stat ("/sys/fs/" ++ T ++ "/" ++ Base devFsPath) s1 with ⟨r, s2⟩
  cases r with
  | error err => by_cases hne : err.IsNotExist <;> simp [hne]
  | ok stat => simp

/-- C3: if `GetDiskFormat(devicePath)` fails, `IsDeviceFilesystemInUse` returns
`(false, e)` with `e` non-nil, the only call made is the format query, and
no stat of any path is added to the trace. -/
theorem C3_format_failure_skips_stat {σ : Type} (k : Kernel σ) (m : SafeFormatAndMount σ)
    (devicePath devFsPath : String) (w : World σ) (u : GoError) (s1 : σ)
    (hfmt : m.getDiskFormat devicePath w.state = (Except.error u, s1)) :
    (IsDeviceFilesystemInUse k m devicePath devFsPath w).1.1 = false
      ∧ (∃ e, (IsDeviceFilesystemInUse k m devicePath devFsPath w).1.2 = some e)
      ∧ (IsDeviceFilesystemInUse k m devicePath devFsPath w).2.trace
          = w.trace ++ [Call.getDiskFormat devicePath]
      ∧ (∀ name, Call.stat name ∈ (IsDeviceFilesystemInUse k m devicePath devFsPath w).2.trace →
          Call.stat name ∈ w.trace)
      ∧ (IsDeviceFilesystemInUse k m devicePath devFsPath w).2.state = s1 := by
  rw [inUse_of_format_error k m devicePath devFsPath w u s1 hfmt]
  refine ⟨rfl, ⟨_, rfl⟩, rfl, ?_, rfl⟩
  intro name hmem
  simpa using hmem

/-- C3 at a concrete input: no format is known for `/dev/sdb`. -/
theorem C3_format_failure_skips_stat_witness :
    (tableMounter []).getDiskFormat "/dev/sdb" (freshWorld [("/sys/fs/ext4/sdb1", Node.dir)]).state
        = (Except.error ⟨"exit status 2", false⟩, [("/sys/fs/ext4/sdb1", Node.dir)])
      ∧ ((IsDeviceFilesystemInUse treeKernel (tableMounter []) "/dev/sdb" "/dev/sdb1"
            (freshWorld [("/sys/fs/ext4/sdb1", Node.dir)])).1.1 = false
        ∧ (∃ e, (IsDeviceFilesystemInUse treeKernel (tableMounter []) "/dev/sdb" "/dev/sdb1"
            (freshWorld [("/sys/fs/ext4/sdb1", Node.dir)])).1.2 = some e)
        ∧ (IsDeviceFilesystemInUse treeKernel (tableMounter []) "/dev/sdb" "/dev/sdb1"
            (freshWorld [("/sys/fs/ext4/sdb1", Node.dir)])).2.trace
            = (freshWorld [("/sys/fs/ext4/sdb1", Node.dir)]).trace ++ [Call.getDiskFormat "/dev/sdb"]
        ∧ (∀ name, Call.stat name ∈ (IsDeviceFilesystemInUse treeKernel (tableMounter [])
              "/dev/sdb" "/dev/sdb1" (freshWorld [("/sys/fs/ext4/sdb1", Node.dir)])).2.trace →
            Call.stat name ∈ (freshWorld [("/sys/fs/ext4/sdb1", Node.dir)]).trace)
        ∧ (IsDeviceFilesystemInUse treeKernel (tableMounter []) "/dev/sdb" "/dev/sdb1"
            (freshWorld [("/sys/fs/ext4/sdb1", Node.dir)])).2.state
            = [("/sys/fs/ext4/sdb1", Node.dir)]) :=
  ⟨rfl, C3_format_failure_skips_stat treeKernel (tableMounter []) "/dev/sdb" "/dev/sdb1"
    (freshWorld [("/sys/fs/ext4/sdb1", Node.dir)]) ⟨"exit status 2", false⟩ _ rfl⟩

/-- C4: if format detection succeeds with type `T` and the stat of
`"/sys/fs/" ++ T ++ "/" ++ base(devFsPath)` fails with a not-exist error, then
`IsDeviceFilesystemInUse` returns `(false, nil)`. -/
theorem C4_absent_lookup_path {σ : Type} (k : Kernel σ) (m : SafeFormatAndMount σ)
    (devicePath devFsPath : String) (w : World σ) (T : String) (s1 : σ) (e : GoError)
    (hfmt : m.getDiskFormat devicePath w.state = (Except.ok T, s1))
    (hstat : (k.stat ("/sys/fs/" ++ T ++ "/" ++ Base devFsPath) s1).1 = Except.error e)
    (hne : e.IsNotExist = true) :
    (IsDeviceFilesystemInUse k m devicePath devFsPath w).1 = (false, none) := by
  rw [inUse_of_format_ok k m devicePath devFsPath w T s1 hfmt]
  simp [hstat, hne]

/-- C4 at the scenario of the specification: the mounter reports `ext4` for
`/dev/sdb`, the device-filesystem path is `/dev/sdb1`, and `/sys/fs/ext4/sdb1`
is absent. -/
theorem C4_absent_lookup_path_witness :
    (tableMounter [("/dev/sdb", "ext4")]).getDiskFormat "/dev/sdb" (freshWorld []).state
        = (Except.ok "ext4", [])
      ∧ (treeKernel.stat ("/sys/fs/" ++ "ext4" ++ "/" ++ Base "/dev/sdb1") []).1
        = Except.error (errNotExist "stat" "/sys/fs/ext4/sdb1")
      ∧ (errNotExist "stat" "/sys/fs/ext4/sdb1").IsNotExist = true
      ∧ (IsDeviceFilesystemInUse treeKernel (tableMounter [("/dev/sdb", "ext4")])
          "/dev/sdb" "/dev/sdb1" (freshWorld [])).1 = (false, none) :=
  ⟨rfl, by decide, rfl,
    C4_absent_lookup_path treeKernel (tableMounter [("/dev/sdb", "ext4")]) "/dev/sdb" "/dev/sdb1"
      (freshWorld []) "ext4" [] (errNotExist "stat" "/sys/fs/ext4/sdb1") rfl (by decide) rfl⟩

/-- C5: if format detection succeeds with type `T` and the stat of
`"/sys/fs/" ++ T ++ "/" ++ base(devFsPath)` succeeds, then
`IsDeviceFilesystemInUse` returns `(d, nil)` where `d` tells whether the path is
a directory: `(true, nil)` for a directory, `(false, nil)` otherwise. -/
theorem C5_existing_lookup_path {σ : Type} (k : Kernel σ) (m : SafeFormatAndMount σ)
    (devicePath devFsPath : String) (w : World σ) (T : String) (s1 : σ) (info : FileInfo)
    (hfmt : m.getDiskFormat devicePath w.state = (Except.ok T, s1))
    (hstat : (k.stat ("/sys/fs/" ++ T ++ "/" ++ Base devFsPath) s1).1 = Except.ok info) :
    (IsDeviceFilesystemInUse k m devicePath devFsPath w).1 = (info.IsDir, none)
      ∧ (info.IsDir = true →
          (IsDeviceFilesystemInUse k m devicePath devFsPath w).1 = (true, none))
      ∧ (info.IsDir = false →
          (IsDeviceFilesystemInUse k m devicePath devFsPath w).1 = (false, none)) := by
  have h : (IsDeviceFilesystemInUse k m devicePath devFsPath w).1 = (info.IsDir, none) := by
    rw [inUse_of_format_ok k m devicePath devFsPath w T s1 hfmt]
    simp [hstat]
  exact ⟨h, fun hd => by rw [h, hd], fun hd => by rw [h, hd]⟩

/-- C5 at the scenario of the specification: type `ext4`, device-filesystem path
`/dev/sdb1`, and `/sys/fs/ext4/sdb1` a directory. -/
theorem C5_existing_lookup_path_witness :
    (tableMounter [("/dev/sdb", "ext4")]).getDiskFormat "/dev/sdb"
        (freshWorld [("/sys/fs/ext4/sdb1", Node.dir)]).state
        = (Except.ok "ext4", [("/sys/fs/ext4/sdb1", Node.dir)])
      ∧ (treeKernel.stat ("/sys/fs/" ++ "ext4" ++ "/" ++ Base "/dev/sdb1")
          [("/sys/fs/ext4/sdb1", Node.dir)]).1 = Except.ok ⟨true⟩
      ∧ (IsDeviceFilesystemInUse treeKernel (tableMounter [("/dev/sdb", "ext4")])
          "/dev/sdb" "/dev/sdb1" (freshWorld [("/sys/fs/ext4/sdb1", Node.dir)])).1 = (true, none) :=
  ⟨rfl, by decide,
    (C5_existing_lookup_path treeKernel (tableMounter [("/dev/sdb", "ext4")]) "/dev/sdb"
      "/dev/sdb1" (freshWorld [("/sys/fs/ext4/sdb1", Node.dir)]) "ext4"
      [("/sys/fs/ext4/sdb1", Node.dir)] ⟨true⟩ rfl (by decide)).1⟩

/-- C6: if format detection succeeds with type `T` and the stat of
`"/sys/fs/" ++ T ++ "/" ++ base(devFsPath)` fails with an error `e` that is not
a not-exist error, then `IsDeviceFilesystemInUse` returns `(false, e)`: the
error is the stat error itself, and the result differs from the `(false, nil)`
of the absence case. -/
theorem C6_stat_failure_propagated {σ : Type} (k : Kernel σ) (m : SafeFormatAndMount σ)
    (devicePath devFsPath : String) (w : World σ) (T : String) (s1 : σ) (e : GoError)
    (hfmt : m.getDiskFormat devicePath w.state = (Except.ok T, s1))
    (hstat : (k.stat ("/sys/fs/" ++ T ++ "/" ++ Base devFsPath) s1).1 = Except.error e)
    (hne : e.IsNotExist = false) :
    (IsDeviceFilesystemInUse k m devicePath devFsPath w).1 = (false, some e)
      ∧ (IsDeviceFilesystemInUse k m devicePath devFsPath w).1 ≠ (false, none) := by
  rw [inUse_of_format_ok k m devicePath devFsPath w T s1 hfmt]
  simp [hstat, hne]

/-- C6 at a concrete input: the metadata of `/sys/fs/ext4/sdb1` cannot be read. -/
theorem C6_stat_failure_propagated_witness :
    (tableMounter [("/dev/sdb", "ext4")]).getDiskFormat "/dev/sdb"
        (freshWorld [("/sys/fs/ext4/sdb1", Node.denied)]).state
        = (Except.ok "ext4", [("/sys/fs/ext4/sdb1", Node.denied)])
      ∧ (treeKernel.stat ("/sys/fs/" ++ "ext4" ++ "/" ++ Base "/dev/sdb1")
          [("/sys/fs/ext4/sdb1", Node.denied)]).1
        = Except.error (errPermission "stat" "/sys/fs/ext4/sdb1")
      ∧ (errPermission "stat" "/sys/fs/ext4/sdb1").IsNotExist = false
      ∧ (IsDeviceFilesystemInUse treeKernel (tableMounter [("/dev/sdb", "ext4")])
            "/dev/sdb" "/dev/sdb1" (freshWorld [("/sys/fs/ext4/sdb1", Node.denied)])).1
          = (false, some (errPermission "stat" "/sys/fs/ext4/sdb1"))
      ∧ (IsDeviceFilesystemInUse treeKernel (tableMounter [("/dev/sdb", "ext4")])
            "/dev/sdb" "/dev/sdb1" (freshWorld [("/sys/fs/ext4/sdb1", Node.denied)])).1
          ≠ (false, none) :=
  ⟨rfl, by decide, rfl,
    C6_stat_failure_propagated treeKernel (tableMounter [("/dev/sdb", "ext4")]) "/dev/sdb"
      "/dev/sdb1" (freshWorld [("/sys/fs/ext4/sdb1", Node.denied)]) "ext4"
      [("/sys/fs/ext4/sdb1", Node.denied)] (errPermission "stat" "/sys/fs/ext4/sdb1")
      rfl (by decide) rfl⟩

/-- C7: when `GetDiskFormat(devicePath)` fails with underlying error `u`, the
error returned by `IsDeviceFilesystemInUse` has exactly the message
`"failed to get disk format for " ++ devicePath ++ " (aka " ++ devFsPath ++ "): " ++ message(u)`,
so `devicePath`, `devFsPath` and the text of `u` each occur in it. -/
theorem C7_format_failure_message {σ : Type} (k : Kernel σ) (m : SafeFormatAndMount σ)
    (devicePath devFsPath : String) (w : World σ) (u : GoError) (s1 : σ)
    (hfmt : m.getDiskFormat devicePath w.state = (Except.error u, s1)) :
    ∃ e : GoError, (IsDeviceFilesystemInUse k m devicePath devFsPath w).1.2 = some e
      ∧ e.Error = "failed to get disk format for " ++ devicePath ++ " (aka " ++ devFsPath
          ++ "): " ++ u.Error
      ∧ (∃ a b : String, e.Error = a ++ devicePath ++ b)
      ∧ (∃ a b : String, e.Error = a ++ devFsPath ++ b)
      ∧ (∃ a b : String, e.Error = a ++ u.Error ++ b) := by
  rw [inUse_of_format_error k m devicePath devFsPath w u s1 hfmt]
  refine ⟨_, rfl, rfl, ?_, ?_, ?_⟩
  · exact ⟨"failed to get disk format for ", " (aka " ++ devFsPath ++ "): " ++ u.Error,
      by simp [ErrorfDiskFormat, String.append_assoc]⟩
  · exact ⟨"failed to get disk format for " ++ devicePath ++ " (aka ", "): " ++ u.Error,
      by simp [ErrorfDiskFormat, String.append_assoc]⟩
  · exact ⟨"failed to get disk format for " ++ devicePath ++ " (aka " ++ devFsPath ++ "): ", "",
      by simp [ErrorfDiskFormat]⟩

/-- C7 at a concrete input: no format is known for `/dev/sdb`. -/
theorem C7_format_failure_message_witness :
    (tableMounter []).getDiskFormat "/dev/sdb" (freshWorld []).state
        = (Except.error ⟨"exit status 2", false⟩, [])
      ∧ ∃ e : GoError, (IsDeviceFilesystemInUse treeKernel (tableMounter []) "/dev/sdb"
            "/dev/sdb1" (freshWorld [])).1.2 = some e
        ∧ e.Error = "failed to get disk format for " ++ "/dev/sdb" ++ " (aka " ++ "/dev/sdb1"
            ++ "): " ++ (GoError.mk "exit status 2" false).Error
        ∧ (∃ a b : String, e.Error = a ++ "/dev/sdb" ++ b)
        ∧ (∃ a b : String, e.Error = a ++ "/dev/sdb1" ++ b)
        ∧ (∃ a b : String, e.Error = a ++ (GoError.mk "exit status 2" false).Error ++ b) :=
  ⟨rfl, C7_format_failure_message treeKernel (tableMounter []) "/dev/sdb" "/dev/sdb1"
    (freshWorld []) ⟨"exit status 2", false⟩ [] rfl⟩

/-! ## Path derivation -/

/-- The final segment: what follows a separator, when it holds none itself, is
what the backward scan keeps. -/
theorem rtakeWhile_after_separator (d s : List Char) (hs : ∀ c ∈ s, c ≠ '/') :
    (d ++ '/' :: s).rtakeWhile (fun c => !IsPathSeparator c) = s := by
  have hp : ∀ c ∈ s.reverse, (fun c => !IsPathSeparator c) c = true := by
    intro c hc
    have := hs c (List.mem_reverse.mp hc)
    simpa [IsPathSeparator] using this
  simp only [List.rtakeWhile, List.reverse_append, List.reverse_cons, List.append_assoc,
    List.singleton_append]
  rw [List.takeWhile_append_of_pos hp]
  simp [List.takeWhile, IsPathSeparator]

/-- A path that does not end in a separator loses nothing to the stripping of
trailing separators. -/
theorem rdropWhile_of_tail_clean (d s : List Char) (hne : s ≠ []) (hs : ∀ c ∈ s, c ≠ '/') :
    (d ++ s).rdropWhile IsPathSeparator = d ++ s := by
  rw [List.rdropWhile_eq_self_iff]
  intro hl
  rw [List.getLast_append_of_ne_nil hne]
  have := hs _ (List.getLast_mem hne)
  simpa [IsPathSeparator] using this

/-- The base of `d/s` is `s`, for a non-empty separator-free `s`. -/
theorem BaseChars_after_separator (d s : List Char) (hne : s ≠ []) (hs : ∀ c ∈ s, c ≠ '/') :
    BaseChars (d ++ '/' :: s) = s := by
  have hstrip : (d ++ '/' :: s).rdropWhile IsPathSeparator = d ++ '/' :: s := by
    have := rdropWhile_of_tail_clean (d ++ ['/']) s hne hs
    simpa using this
  simp [BaseChars, hstrip, rtakeWhile_after_separator d s hs, hne]

/-- The base of a non-empty separator-free `s` is `s`. -/
theorem BaseChars_of_clean (s : List Char) (hne : s ≠ []) (hs : ∀ c ∈ s, c ≠ '/') :
    BaseChars s = s := by
  have hstrip : s.rdropWhile IsPathSeparator = s := by
    simpa using rdropWhile_of_tail_clean [] s hne hs
  have hlast : s.rtakeWhile (fun c => !IsPathSeparator c) = s := by
    rw [List.rtakeWhile_eq_self_iff]
    intro c hc
    simpa [IsPathSeparator] using hs c hc
  simp [BaseChars, hstrip, hlast, hne]

/-- The base is never empty. -/
theorem BaseChars_ne_nil (p : List Char) : BaseChars p ≠ [] := by
  unfold BaseChars
  by_cases hp : p = []
  · simp [hp]
  · by_cases hl : (p.rdropWhile IsPathSeparator).rtakeWhile (fun c => !IsPathSeparator c) = []
    · simp [hp, hl]
    · simp [hp, hl]

/-- The base is the single separator or holds no separator at all. -/
theorem BaseChars_slash_or_clean (p : List Char) :
    BaseChars p = ['/'] ∨ ∀ c ∈ BaseChars p, c ≠ '/' := by
  unfold BaseChars
  by_cases hp : p = []
  · right
    simp [hp]
  · by_cases hl : (p.rdropWhile IsPathSeparator).rtakeWhile (fun c => !IsPathSeparator c) = []
    · left
      simp [hp, hl]
    · right
      intro c hc
      simp only [hp, hl, if_false] at hc
      have := List.mem_rtakeWhile_imp hc
      simpa [IsPathSeparator] using this

/-- A non-empty path made of separators only has the separator as its base. -/
theorem BaseChars_all_separators (p : List Char) (hne : p ≠ []) (hall : ∀ c ∈ p, c = '/') :
    BaseChars p = ['/'] := by
  have hstrip : p.rdropWhile IsPathSeparator = [] := by
    rw [List.rdropWhile_eq_nil_iff]
    intro c hc
    simp [IsPathSeparator, hall c hc]
  simp [BaseChars, hne, hstrip]

/-- The base of a string, character by character. -/
theorem Base_data (p : String) : (Base p).data = BaseChars p.data := rfl

/-- Components split at a separator. -/
theorem componentsFrom_append_separator (a b acc : List Char) :
    componentsFrom (a ++ '/' :: b) acc = componentsFrom a acc ++ componentsFrom b [] := by
  induction a generalizing acc with
  | nil => simp [componentsFrom]
  | cons c cs ih =>
    by_cases hc : c = '/'
    · simp [componentsFrom, hc, ih]
    · simp [componentsFrom, hc, ih]

/-- A separator-free run is a single component, or none when it is empty. -/
theorem componentsFrom_of_clean (s acc : List Char) (hs : ∀ c ∈ s, c ≠ '/') :
    componentsFrom s acc = if acc.reverse ++ s = [] then [] else [acc.reverse ++ s] := by
  induction s generalizing acc with
  | nil => simp [componentsFrom]
  | cons c cs ih =>
    have hc : c ≠ '/' := hs c (List.mem_cons_self c cs)
    have hcs : ∀ x ∈ cs, x ≠ '/' := fun x hx => hs x (List.mem_cons_of_mem c hx)
    simp [componentsFrom, hc, ih (c :: acc) hcs]

/-- The base of any path is at most one component. -/
theorem componentsFrom_BaseChars (p : List Char) :
    componentsFrom (BaseChars p) [] = if BaseChars p = ['/'] then [] else [BaseChars p] := by
  rcases BaseChars_slash_or_clean p with h | h
  · simp [h, componentsFrom]
  · have hne : BaseChars p ≠ ['/'] := by
      intro heq
      exact h '/' (by simp [heq]) rfl
    rw [componentsFrom_of_clean _ _ h]
    simp [hne, BaseChars_ne_nil p]

/-- C8: path derivation depends only on the final segment: for every prefix `d`
and every non-empty segment `s` without a separator, the names derived from
`d ++ "/" ++ s` and from `s` alone are both `s`, so `DisableDevice` makes the
same write, with the same outcome, for both inputs. -/
theorem C8_base_depends_on_final_segment (d s : String) (hne : s ≠ "")
    (hclean : ∀ c ∈ s.data, c ≠ '/') :
    Base (d ++ "/" ++ s) = s
      ∧ Base s = s
      ∧ Base (d ++ "/" ++ s) = Base s
      ∧ SprintfBlockState (Base (d ++ "/" ++ s)) = "/sys/block/" ++ s ++ "/device/state"
      ∧ ∀ (σ : Type) (k : Kernel σ) (w : World σ),
          DisableDevice k (d ++ "/" ++ s) w = DisableDevice k s w := by
  have hne2 : s.data ≠ [] := fun h => hne (String.ext h)
  have h1 : Base (d ++ "/" ++ s) = s := by
    apply String.ext
    rw [Base_data]
    have hd : (d ++ "/" ++ s).data = d.data ++ '/' :: s.data := by
      simp [String.data_append]
    rw [hd]
    exact BaseChars_after_separator d.data s.data hne2 hclean
  have h2 : Base s = s := by
    apply String.ext
    rw [Base_data]
    exact BaseChars_of_clean s.data hne2 hclean
  refine ⟨h1, h2, h1.trans h2.symm, by rw [h1]; rfl, ?_⟩
  intro σ k w
  simp only [DisableDevice, h1, h2]

/-- C8 at the example of the specification: `/dev/disk/by-id/xyz123` and
`xyz123` both derive `xyz123`. -/
theorem C8_base_depends_on_final_segment_witness :
    "xyz123" ≠ "" ∧ (∀ c ∈ "xyz123".data, c ≠ '/')
      ∧ (Base ("/dev/disk/by-id" ++ "/" ++ "xyz123") = "xyz123"
        ∧ Base "xyz123" = "xyz123"
        ∧ Base ("/dev/disk/by-id" ++ "/" ++ "xyz123") = Base "xyz123"
        ∧ SprintfBlockState (Base ("/dev/disk/by-id" ++ "/" ++ "xyz123"))
            = "/sys/block/" ++ "xyz123" ++ "/device/state"
        ∧ ∀ (σ : Type) (k : Kernel σ) (w : World σ),
            DisableDevice k ("/dev/disk/by-id" ++ "/" ++ "xyz123") w
              = DisableDevice k "xyz123" w) :=
  ⟨by decide, by decide,
    C8_base_depends_on_final_segment "/dev/disk/by-id" "xyz123" (by decide) (by decide)⟩

/-- C9 as stated fails: `/dev/sdb1` and `/dev/disk/by-id/sdb1` have the same
final segment, yet when format detection fails the two runs return errors with
different messages, since the message quotes the whole device-filesystem path. -/
theorem C9_same_base_counterexample :
    Base "/dev/sdb1" = Base "/dev/disk/by-id/sdb1"
      ∧ (IsDeviceFilesystemInUse treeKernel (tableMounter []) "/dev/sdb" "/dev/sdb1"
            (freshWorld [])).1
          ≠ (IsDeviceFilesystemInUse treeKernel (tableMounter []) "/dev/sdb"
            "/dev/disk/by-id/sdb1" (freshWorld [])).1
      ∧ (IsDeviceFilesystemInUse treeKernel (tableMounter []) "/dev/sdb" "/dev/sdb1"
            (freshWorld [])).1
          = (false, some ⟨"failed to get disk format for /dev/sdb (aka /dev/sdb1): exit status 2",
              false⟩)
      ∧ (IsDeviceFilesystemInUse treeKernel (tableMounter []) "/dev/sdb" "/dev/disk/by-id/sdb1"
            (freshWorld [])).1
          = (false, some
              ⟨"failed to get disk format for /dev/sdb (aka /dev/disk/by-id/sdb1): exit status 2",
              false⟩) := by
  decide

/-- C9, amended: for two device-filesystem paths with the same final segment,
the two runs of `IsDeviceFilesystemInUse` from the same state return the same
boolean, agree on whether the error is nil, make the same calls and leave the
same state; when format detection succeeds they return the same error as well;
when it fails with `u`, each returns `false` and the error whose message is
`"failed to get disk format for " ++ devicePath ++ " (aka " ++ f ++ "): " ++ message(u)`
for its own path `f`. -/
theorem C9_same_base_same_outcome {σ : Type} (k : Kernel σ) (m : SafeFormatAndMount σ)
    (devicePath f1 f2 : String) (w : World σ) (hbase : Base f1 = Base f2) :
    (IsDeviceFilesystemInUse k m devicePath f1 w).1.1
        = (IsDeviceFilesystemInUse k m devicePath f2 w).1.1
      ∧ ((IsDeviceFilesystemInUse k m devicePath f1 w).1.2 = none
          ↔ (IsDeviceFilesystemInUse k m devicePath f2 w).1.2 = none)
      ∧ (IsDeviceFilesystemInUse k m devicePath f1 w).2
        = (IsDeviceFilesystemInUse k m devicePath f2 w).2
      ∧ (∀ (T : String) (s1 : σ), m.getDiskFormat devicePath w.state = (Except.ok T, s1) →
          IsDeviceFilesystemInUse k m devicePath f1 w = IsDeviceFilesystemInUse k m devicePath f2 w)
      ∧ (∀ (u : GoError) (s1 : σ), m.getDiskFormat devicePath w.state = (Except.error u, s1) →
          (IsDeviceFilesystemInUse k m devicePath f1 w).1
              = (false, some ⟨"failed to get disk format for " ++ devicePath ++ " (aka " ++ f1
                  ++ "): " ++ u.Error, false⟩)
            ∧ (IsDeviceFilesystemInUse k m devicePath f2 w).1
              = (false, some ⟨"failed to get disk format for " ++ devicePath ++ " (aka " ++ f2
                  ++ "): " ++ u.Error, false⟩)) := by
  rcases hfmt : m.getDiskFormat devicePath w.state with ⟨r, s1⟩
  cases r with
  | error u =>
    rw [inUse_of_format_error k m devicePath f1 w u s1 hfmt,
      inUse_of_format_error k m devicePath f2 w u s1 hfmt]
    refine ⟨rfl, by simp, rfl, ?_, ?_⟩
    · intro T s2 h
      cases h
    · intro u2 s2 h
      cases h
      exact ⟨rfl, rfl⟩
  | ok T =>
    rw [inUse_of_format_ok k m devicePath f1 w T s1 hfmt,
      inUse_of_format_ok k m devicePath f2 w T s1 hfmt, hbase]
    refine ⟨rfl, Iff.rfl, rfl, fun _ _ _ => rfl, ?_⟩
    intro u2 s2 h
    cases h

/-- C9, amended, at `/dev/sdb1` and `/dev/disk/by-id/sdb1` with `/sys/fs/ext4/sdb1`
a directory. -/
theorem C9_same_base_same_outcome_witness :
    Base "/dev/sdb1" = Base "/dev/disk/by-id/sdb1"
      ∧ (IsDeviceFilesystemInUse treeKernel (tableMounter [("/dev/sdb", "ext4")]) "/dev/sdb"
            "/dev/sdb1" (freshWorld [("/sys/fs/ext4/sdb1", Node.dir)])).1.1
          = (IsDeviceFilesystemInUse treeKernel (tableMounter [("/dev/sdb", "ext4")]) "/dev/sdb"
            "/dev/disk/by-id/sdb1" (freshWorld [("/sys/fs/ext4/sdb1", Node.dir)])).1.1
      ∧ (IsDeviceFilesystemInUse treeKernel (tableMounter [("/dev/sdb", "ext4")]) "/dev/sdb"
            "/dev/sdb1" (freshWorld [("/sys/fs/ext4/sdb1", Node.dir)])).2
          = (IsDeviceFilesystemInUse treeKernel (tableMounter [("/dev/sdb", "ext4")]) "/dev/sdb"
            "/dev/disk/by-id/sdb1" (freshWorld [("/sys/fs/ext4/sdb1", Node.dir)])).2 :=
  ⟨by decide,
    (C9_same_base_same_outcome treeKernel (tableMounter [("/dev/sdb", "ext4")]) "/dev/sdb"
      "/dev/sdb1" "/dev/disk/by-id/sdb1" (freshWorld [("/sys/fs/ext4/sdb1", Node.dir)])
      (by decide)).1,
    (C9_same_base_same_outcome treeKernel (tableMounter [("/dev/sdb", "ext4")]) "/dev/sdb"
      "/dev/sdb1" "/dev/disk/by-id/sdb1" (freshWorld [("/sys/fs/ext4/sdb1", Node.dir)])
      (by decide)).2.2.1⟩

/-- C10: for every input string, the empty one, those made of separators only
and those with trailing separators included, the derived short name is
non-empty and is either exactly `"/"` or free of separators (the empty string
derives `"."`, a non-empty all-separator string derives `"/"`); hence it is at
most one path component, and both `"/sys/block/<name>/device/state"` and
`"/sys/fs/<fstype>/<name>"` have no component beyond those of the fixed text,
of the filesystem type, and that one. -/
theorem C10_base_is_one_segment (p : String) :
    Base p ≠ ""
      ∧ (Base p = "/" ∨ ∀ c ∈ (Base p).data, c ≠ '/')
      ∧ Base "" = "."
      ∧ (p ≠ "" → (∀ c ∈ p.data, c = '/') → Base p = "/")
      ∧ components (Base p) = (if Base p = "/" then [] else [Base p])
      ∧ components (SprintfBlockState (Base p))
          = ["sys", "block"] ++ components (Base p) ++ ["device", "state"]
      ∧ ∀ fstype : String, components (SprintfSysFs fstype (Base p))
          = components ("/sys/fs/" ++ fstype) ++ components (Base p) := by
  have hslash : ∀ q : String, (q = "/" ↔ q.data = ['/']) := fun q =>
    ⟨fun h => by rw [h], fun h => String.ext h⟩
  refine ⟨?_, ?_, by decide, ?_, ?_, ?_, ?_⟩
  · intro h
    exact BaseChars_ne_nil p.data (by rw [← Base_data, h])
  · rcases BaseChars_slash_or_clean p.data with h | h
    · exact Or.inl (String.ext h)
    · exact Or.inr h
  · intro hne hall
    apply String.ext
    rw [Base_data]
    exact BaseChars_all_separators p.data (fun h => hne (String.ext h)) hall
  · simp only [components, Base_data, componentsFrom_BaseChars, hslash]
    by_cases h : BaseChars p.data = ['/']
    · simp [h]
    · simp [h, Base]
  · have hd : (SprintfBlockState (Base p)).data
        = ("/sys/block".data ++ '/' :: (Base p).data) ++ '/' :: "device/state".data := by
      simp [SprintfBlockState, String.data_append]
    simp only [components, hd, componentsFrom_append_separator, List.map_append]
    have h1 : List.map String.mk (componentsFrom "/sys/block".data []) = ["sys", "block"] := by
      decide
    have h2 : List.map String.mk (componentsFrom "device/state".data [])
        = ["device", "state"] := by decide
    rw [h1, h2]
  · intro fstype
    have hd : (SprintfSysFs fstype (Base p)).data
        = ("/sys/fs/" ++ fstype).data ++ '/' :: (Base p).data := by
      simp [SprintfSysFs, String.data_append]
    simp only [components, hd, componentsFrom_append_separator, List.map_append]

end deviceutils
